import Mathlib

/-!
Shallow embedding of the "Argue with AI (Avatar)" pipeline
(audio-recorder-mvp: whisper_transcribe.py, gpt_feedback.py, avatar_gen.py,
scoring.py).  Remote calls, randomness and the filesystem are modelled as
explicit oracle parameters; machine floats are modelled as rationals (the
code only compares and concatenates scores); Python dicts with optional
keys become structures with Option fields.
-/

namespace AudioMVP

/-- Python `str.strip()` style predicate of a needle being a prefix of a
character list (needle first argument). -/
def listStartsWith : List Char → List Char → Bool
  | [], _ => true
  | _ :: _, [] => false
  | a :: as, b :: bs => a == b && listStartsWith as bs

/-- Needle occurs as a contiguous substring of the haystack character list:
Python `needle in hay`. -/
def listHasSub (needle : List Char) : List Char → Bool
  | [] => needle.isEmpty
  | b :: bs => listStartsWith needle (b :: bs) || listHasSub needle bs

/-- Python `needle in hay` on strings. -/
def strContains (hay needle : String) : Bool :=
  listHasSub needle.data hay.data

/-- Python `str.strip()`: drop leading and trailing whitespace. -/
def pyStrip (s : String) : String :=
  ⟨((s.data.dropWhile Char.isWhitespace).reverse.dropWhile Char.isWhitespace).reverse⟩

/-- Python `str.lower()` (the indicator phrases below are ASCII, so the
ASCII-only `Char.toLower` is faithful here). -/
def strLower (s : String) : String :=
  ⟨s.data.map Char.toLower⟩

/-- Worker for `replaceAll`, structurally recursive on a fuel counter so
that it reduces in the kernel.  With a non-empty needle, every step
consumes at least one haystack character and one unit of fuel, so as long
as the fuel is at least the haystack length the fuel never runs out
before the haystack does (and on an exhausted haystack the fuel-0 branch
returns it unchanged, i.e. `[]`). -/
def replaceAllGo (needle repl : List Char) : Nat → List Char → List Char
  | 0, hay => hay
  | _ + 1, [] => []
  | fuel + 1, c :: rest =>
    if listStartsWith needle (c :: rest) then
      repl ++ replaceAllGo needle repl fuel ((c :: rest).drop needle.length)
    else
      c :: replaceAllGo needle repl fuel rest

/-- Python `str.replace(needle, repl)`: left-to-right, non-overlapping
replacement of every occurrence (all needles used in the code are
non-empty; on an empty needle this returns the haystack unchanged). -/
def replaceAll (needle repl hay : List Char) : List Char :=
  match needle with
  | [] => hay
  | _ :: _ => replaceAllGo needle repl hay.length hay

/-- Python `s.replace(pat, repl)` on strings. -/
def strReplace (s pat repl : String) : String :=
  ⟨replaceAll pat.data repl.data s.data⟩

/-- Python `f"{x}"` on an optional string: `None` prints as `"None"`. -/
def optStr : Option String → String
  | some s => s
  | none => "None"

/-! ## Transcription client (whisper_transcribe.py) -/

/-- Result dictionary returned by `WhisperTranscriber.transcribe_audio` and
`transcribe_audio_blob` (the `segments` list is opaque timing data, modelled
as a list of strings). -/
structure TranscriptionResult where
  text : String
  language : Option String
  duration : Option ℚ
  segments : List String
  success : Bool
  error : Option String
deriving Repr, DecidableEq

/-- The error dictionary produced by the `except` blocks of
`transcribe_audio` / `transcribe_audio_blob`. -/
def transcriptionErrorResult (msg : String) : TranscriptionResult :=
  { text := "", language := none, duration := none, segments := [],
    success := false, error := some msg }

/-- `WhisperTranscriber.is_transcription_valid`.  Note the source compares
the mixed-case indicators `"[Music]"` and `"[Applause]"` against the
lowercased text, exactly as written (lines 146-159 of
whisper_transcribe.py). -/
def is_transcription_valid (tr : TranscriptionResult) (min_length : Nat := 10) : Bool :=
  if !tr.success then false
  else
    let text := pyStrip tr.text
    if text.length < min_length then false
    else
      let text_lower := strLower text
      let failure_indicators : List String :=
        ["thank you for watching", "thanks for watching", "please subscribe",
         "[Music]", "[Applause]", "..."]
      if failure_indicators.any (fun ind => strContains text_lower ind && decide (text.length < 50)) then
        false
      else true

/-- Outcome of the delegated `transcribe_audio` call inside
`transcribe_audio_blob`: it either returns a result dictionary (success or
failure — `transcribe_audio` itself never raises) or, hypothetically,
raises with a message. -/
inductive TranscribeOutcome where
  | returns (res : TranscriptionResult)
  | raises (msg : String)
deriving Repr, DecidableEq

/-- `WhisperTranscriber.transcribe_audio_blob`, with the filesystem as an
explicit list of existing paths.  The scoped temporary file `tempPath` is
created (written), the delegated call runs, and the `finally` block removes
the file whether the delegated call returned or raised; a raise is then
turned into the error dictionary by the outer `except`. -/
def transcribe_audio_blob (fs : List String) (tempPath : String)
    (outcome : TranscribeOutcome) : TranscriptionResult × List String :=
  let fsWithTemp := tempPath :: fs
  let fsAfter := fsWithTemp.filter (fun p => p ≠ tempPath)
  match outcome with
  | .returns res => (res, fsAfter)
  | .raises msg => (transcriptionErrorResult msg, fsAfter)

/-! ## Feedback client (gpt_feedback.py) -/

/-- The pydantic model `ArgumentFeedback` (typed fields; scores are floats
in the source, modelled as rationals). -/
structure ArgumentFeedback where
  score : ℚ
  emojis : String
  comment : String
  reasoning : Option String
deriving Repr, DecidableEq

/-- The pydantic field constraints of `ArgumentFeedback`:
`score` in [1, 10], `emojis` length 1-20, `comment` length at most 100. -/
def feedbackSchemaValid (f : ArgumentFeedback) : Bool :=
  decide (1 ≤ f.score) && decide (f.score ≤ 10) &&
  decide (1 ≤ f.emojis.length) && decide (f.emojis.length ≤ 20) &&
  decide (f.comment.length ≤ 100)

/-- The result dictionary shape returned by `generate_feedback`,
`generate_custom_feedback` and `_get_fallback_feedback`. -/
structure FeedbackResult where
  score : ℚ
  emojis : String
  comment : String
  reasoning : Option String
  success : Bool
  error : Option String
  raw_response : Option String
deriving Repr, DecidableEq

/-- One entry of the `fallback_responses` list. -/
structure FeedbackContent where
  score : ℚ
  emojis : String
  comment : String
  reasoning : String
deriving Repr, DecidableEq

/-- The three fixed fallback records of `_get_fallback_feedback` (the
emoji strings are copied byte-for-byte from the source file, which stores
them in a doubly-encoded form). -/
def fallback_responses : List FeedbackContent :=
  [{ score := 5, emojis := "ðŸ¤–ðŸ˜…ðŸ”§",
     comment := "AI brain glitched! But I heard some good points.",
     reasoning := "Technical difficulties occurred" },
   { score := 6, emojis := "âš¡ðŸ¤”ðŸ’­",
     comment := "Connection issues, but your passion came through!",
     reasoning := "API error during evaluation" },
   { score := 5.5, emojis := "ðŸŒðŸ˜ŠðŸ‘",
     comment := "Technical hiccup, but keep arguing!",
     reasoning := "System error occurred" }]

/-- `GPTFeedbackGenerator._get_fallback_feedback`; `random.choice` over the
three records is modelled by the explicit index `choice`. -/
def get_fallback_feedback (error_message : String) (choice : Fin 3) : FeedbackResult :=
  let fb := fallback_responses.get ⟨choice.val, choice.isLt⟩
  { score := fb.score, emojis := fb.emojis, comment := fb.comment,
    reasoning := some fb.reasoning,
    success := false, error := some error_message, raw_response := none }

/-- Outcome of the remote chat-completion exchange in `generate_feedback`,
up to and including `json.loads`: the call itself may raise
(`callError`, which also covers pydantic key/type errors on malformed
JSON objects), the reply may fail to parse as JSON (`parseError`), or it
parses into typed fields (`parsed`), which pydantic then checks against
the field constraints. -/
inductive FeedbackReply where
  | callError (msg : String)
  | parseError (raw : String)
  | parsed (raw : String) (data : ArgumentFeedback)
deriving Repr, DecidableEq

/-- `GPTFeedbackGenerator.generate_feedback`.  `vmsg` renders the pydantic
`ValidationError` message for constraint-violating data (`str(e)` in the
source); the message text itself is produced by the pydantic library, so it
is kept abstract. -/
def generate_feedback (reply : FeedbackReply) (choice : Fin 3)
    (vmsg : ArgumentFeedback → String) : FeedbackResult :=
  match reply with
  | .callError msg => get_fallback_feedback msg choice
  | .parseError _ => get_fallback_feedback "Invalid response format from AI" choice
  | .parsed raw data =>
    if feedbackSchemaValid data then
      { score := data.score, emojis := data.emojis, comment := data.comment,
        reasoning := data.reasoning,
        success := true, error := none, raw_response := some raw }
    else
      get_fallback_feedback (vmsg data) choice

/-- Parsed JSON object seen by `generate_custom_feedback`: each of the
three required keys may be present or absent (extra keys beyond the four
known ones are not modelled). -/
structure CustomFeedbackData where
  score : Option ℚ
  emojis : Option String
  comment : Option String
  reasoning : Option String
deriving Repr, DecidableEq

/-- Outcome of the remote exchange in `generate_custom_feedback`: any
call or JSON-parse failure (`fail`, carrying `str(e)`), or a parsed
object. -/
inductive CustomReply where
  | fail (msg : String)
  | parsed (raw : String) (data : CustomFeedbackData)
deriving Repr, DecidableEq

/-- `GPTFeedbackGenerator.generate_custom_feedback`: only checks that the
keys `score`, `emojis`, `comment` are present (in that order), then
returns the data spread into the result with `success=True` — no range or
length validation. -/
def generate_custom_feedback (reply : CustomReply) (choice : Fin 3) : FeedbackResult :=
  match reply with
  | .fail msg => get_fallback_feedback msg choice
  | .parsed raw data =>
    match data.score, data.emojis, data.comment with
    | none, _, _ => get_fallback_feedback "Missing required key: score" choice
    | some _, none, _ => get_fallback_feedback "Missing required key: emojis" choice
    | some _, some _, none => get_fallback_feedback "Missing required key: comment" choice
    | some s, some e, some c =>
      { score := s, emojis := e, comment := c, reasoning := data.reasoning,
        success := true, error := none, raw_response := some raw }

/-! ## Avatar video client (avatar_gen.py) -/

/-- Union of the response dictionary shapes produced by the avatar client
(keys absent in a given shape are `none`). -/
structure AvatarResponse where
  success : Bool
  video_id : Option String
  status : String
  video_url : Option String
  duration : Option ℚ
  thumbnail_url : Option String
  message : Option String
  error : Option String
deriving Repr, DecidableEq

/-- `HeyGenAvatarGenerator._get_disabled_response`. -/
def disabled_response : AvatarResponse :=
  { success := false, video_id := none, status := "disabled", video_url := none,
    duration := none, thumbnail_url := none,
    message := some "Avatar generation is disabled. Add HeyGen API key to enable.",
    error := some "HeyGen API key not configured" }

/-- `HeyGenAvatarGenerator._get_error_response`. -/
def error_response (error_message : String) : AvatarResponse :=
  { success := false, video_id := none, status := "error", video_url := none,
    duration := none, thumbnail_url := none,
    message := some "Avatar video generation failed",
    error := some error_message }

/-- The avatar client's configuration state after `__init__`. -/
structure HeyGenAvatarGenerator where
  api_key : Option String
  avatar_id : Option String
  enabled : Bool
deriving Repr, DecidableEq

/-- `HeyGenAvatarGenerator.__init__` (environment-variable fallbacks are
folded into the arguments): `enabled` iff an API key is present. -/
def mkHeyGenAvatarGenerator (api_key avatar_id : Option String) : HeyGenAvatarGenerator :=
  { api_key := api_key, avatar_id := avatar_id, enabled := api_key.isSome }

def HeyGenAvatarGenerator.is_enabled (g : HeyGenAvatarGenerator) : Bool :=
  g.enabled

/-- Remote reply to the `POST /video/generate` request. -/
structure GenHttpReply where
  status_code : Nat
  body_text : String
  video_id : Option String
deriving Repr, DecidableEq

/-- Remote reply to the `GET /video/{video_id}` status request. -/
structure StatusHttpReply where
  status_code : Nat
  body_text : String
  status : Option String
  video_url : Option String
  duration : Option ℚ
  thumbnail_url : Option String
deriving Repr, DecidableEq

/-- A network interaction either yields a reply or raises (timeout,
connection error, ...). -/
inductive NetReply (α : Type) where
  | reply (r : α)
  | raises (msg : String)
deriving Repr, DecidableEq

/-- `HeyGenAvatarGenerator.generate_avatar_video`.  The second component
counts outbound network requests.  The fixed request payload (voice id,
background color, dimensions) is data sent to the remote service and does
not influence the control flow modelled here. -/
def generate_avatar_video (gen : HeyGenAvatarGenerator) (script_text : String)
    (avatar_id : Option String) (net : NetReply GenHttpReply) : AvatarResponse × Nat :=
  if !gen.enabled then (disabled_response, 0)
  else
    match avatar_id.orElse (fun _ => gen.avatar_id) with
    | none =>
      (error_response "Avatar ID is required. Set HEYGEN_AVATAR_ID environment variable or pass avatar_id parameter.", 0)
    | some _ =>
      match net with
      | .raises msg => (error_response msg, 1)
      | .reply r =>
        if r.status_code = 200 then
          match r.video_id with
          | some vid =>
            ({ success := true, video_id := some vid, status := "generating",
               video_url := none, duration := none, thumbnail_url := none,
               message := some "Avatar video generation started", error := none }, 1)
          | none => (error_response "No video ID returned from API", 1)
        else
          (error_response ("HeyGen API error: " ++ toString r.status_code ++ " - " ++ r.body_text), 1)

/-- `HeyGenAvatarGenerator.check_video_status`. -/
def check_video_status (gen : HeyGenAvatarGenerator) (video_id : String)
    (net : NetReply StatusHttpReply) : AvatarResponse × Nat :=
  if !gen.enabled then (disabled_response, 0)
  else
    match net with
    | .raises msg => (error_response msg, 1)
    | .reply r =>
      if r.status_code = 200 then
        ({ success := true, video_id := some video_id,
           status := r.status.getD "unknown", video_url := r.video_url,
           duration := r.duration, thumbnail_url := r.thumbnail_url,
           message := none, error := none }, 1)
      else
        (error_response ("Status check failed: " ++ toString r.status_code ++ " - " ++ r.body_text), 1)

/-- The polling loop of `HeyGenAvatarGenerator.wait_for_completion`.
`net n` is the reply to the n-th status request, `elapsed` the simulated
wall-clock seconds spent so far (the loop sleeps `poll` seconds between
polls, which is the only advance of time modelled), `acc` the requests
made so far.  Total because `poll` is positive. -/
def waitLoop (gen : HeyGenAvatarGenerator) (video_id : String)
    (net : Nat → NetReply StatusHttpReply) (maxWait poll : Nat) (hpoll : 0 < poll)
    (elapsed n acc : Nat) : AvatarResponse × Nat :=
  if h : elapsed < maxWait then
    let r := check_video_status gen video_id (net n)
    let acc' := acc + r.2
    if r.1.success = false then (r.1, acc')
    else if r.1.status = "completed" then (r.1, acc')
    else if r.1.status = "failed" then (error_response "Video generation failed", acc')
    else waitLoop gen video_id net maxWait poll hpoll (elapsed + poll) (n + 1) acc'
  else
    (error_response ("Video generation timed out after " ++ toString maxWait ++ " seconds"), acc)
termination_by maxWait - elapsed
decreasing_by omega

/-- `HeyGenAvatarGenerator.wait_for_completion` (defaults in the source:
`max_wait_time=300`, `poll_interval=10`). -/
def wait_for_completion (gen : HeyGenAvatarGenerator) (video_id : String)
    (net : Nat → NetReply StatusHttpReply) (maxWait poll : Nat) (hpoll : 0 < poll) :
    AvatarResponse × Nat :=
  if !gen.enabled then (disabled_response, 0)
  else waitLoop gen video_id net maxWait poll hpoll 0 0 0

/-- Rendering of a score into the spoken script, abstracting Python's
float-to-string formatting in the f-string of
`generate_reaction_script`. -/
def scoreRepr (q : ℚ) : String :=
  toString q

/-- The intro-line selection of `generate_reaction_script` (the
`if score >= 8.0: ... elif ... else ...` chain). -/
def introFor (score : ℚ) : String :=
  if (8 : ℚ) ≤ score then "Wow! That was impressive!"
  else if (6 : ℚ) ≤ score then "Not bad, not bad!"
  else if (4 : ℚ) ≤ score then "Hmm, I see what you're trying to say..."
  else "Okay, let me be honest with you..."

/-- `HeyGenAvatarGenerator.generate_reaction_script` (the source also
reads the `emojis` key of the feedback dictionary but never uses it). -/
def generate_reaction_script (feedback_data : FeedbackResult) : String :=
  let score := feedback_data.score
  let comment := feedback_data.comment
  let intro := introFor score
  let clean_comment := strReplace (strReplace comment "..." " pause ") "!" " exclamation "
  intro ++ " " ++ clean_comment ++ " I'm giving you a " ++ scoreRepr score ++
    " out of 10 for that argument!"

/-- `HeyGenAvatarGenerator.create_reaction_video`. -/
def create_reaction_video (gen : HeyGenAvatarGenerator) (feedback_data : FeedbackResult)
    (avatar_id : Option String) (net : NetReply GenHttpReply) : AvatarResponse × Nat :=
  if !gen.enabled then (disabled_response, 0)
  else generate_avatar_video gen (generate_reaction_script feedback_data) avatar_id net

/-! ## Orchestration layer (scoring.py) -/

/-- The `Pipeline Result` dictionary built by `process_audio_file` /
`process_audio_blob` (the wall-clock `timestamp` field is not modelled). -/
structure PipelineResult where
  audio_file : String
  context : Option String
  transcription : Option TranscriptionResult
  feedback : Option FeedbackResult
  avatar_video : Option AvatarResponse
  success : Bool
  error : Option String
  processing_steps : List String
deriving Repr, DecidableEq

/-- The disabled placeholder dictionary the scorer stores in
`avatar_video` when no enabled avatar generator is configured
(scoring.py lines 150-154 and 247-251). -/
def scorerDisabledPlaceholder : AvatarResponse :=
  { success := false, video_id := none, status := "disabled", video_url := none,
    duration := none, thumbnail_url := none,
    message := some "Avatar generation is disabled", error := none }

/-- Shared body of `process_audio_file` and `process_audio_blob` after the
audio-ingestion step: `tr` is the transcription result the transcriber
returned, `fbReply`/`choice`/`vmsg` drive the feedback stage through
`generate_feedback`, `avatarGen` is the scorer's (optional) avatar
generator and `avNet` the network oracle for its generation request.  The
two `raise` statements of the source are the only exceptions that can
occur in the `try` block (every client call catches its own errors), and
the `except` handler turns them into the failure record. -/
def runPipeline (avatarGen : Option HeyGenAvatarGenerator)
    (tr : TranscriptionResult) (fbReply : FeedbackReply) (choice : Fin 3)
    (vmsg : ArgumentFeedback → String) (avNet : NetReply GenHttpReply)
    (audio_file : String) (context : Option String) : PipelineResult :=
  let r1 : PipelineResult :=
    { audio_file := audio_file, context := context,
      transcription := some tr, feedback := none, avatar_video := none,
      success := false, error := none,
      processing_steps := ["transcription_started"] }
  if !tr.success then
    let msg := "Transcription failed: " ++ optStr tr.error
    { r1 with error := some msg,
              processing_steps := r1.processing_steps ++ ["pipeline_failed: " ++ msg] }
  else if !is_transcription_valid tr 10 then
    let msg := "Transcription is too short or invalid"
    { r1 with error := some msg,
              processing_steps := r1.processing_steps ++ ["pipeline_failed: " ++ msg] }
  else
    let fb := generate_feedback fbReply choice vmsg
    let r2 : PipelineResult :=
      { r1 with feedback := some fb,
                processing_steps := r1.processing_steps ++
                  ["transcription_completed", "feedback_started", "feedback_completed"] }
    let r3 : PipelineResult :=
      match avatarGen with
      | some g =>
        if g.is_enabled then
          let av := (create_reaction_video g fb none avNet).1
          { r2 with avatar_video := some av,
                    processing_steps := r2.processing_steps ++ ["avatar_started", "avatar_completed"] }
        else
          { r2 with avatar_video := some scorerDisabledPlaceholder }
      | none => { r2 with avatar_video := some scorerDisabledPlaceholder }
    { r3 with success := true,
              processing_steps := r3.processing_steps ++ ["pipeline_completed"] }

/-- `ArgumentScorer.process_audio_file` (lines 74-168 of scoring.py): the
transcriber's answer for the given path is `tr`; the rest of the stages
are as in `runPipeline`. -/
def process_audio_file (avatarGen : Option HeyGenAvatarGenerator)
    (tr : TranscriptionResult) (fbReply : FeedbackReply) (choice : Fin 3)
    (vmsg : ArgumentFeedback → String) (avNet : NetReply GenHttpReply)
    (audio_file_path : String) (context : Option String) : PipelineResult :=
  runPipeline avatarGen tr fbReply choice vmsg avNet audio_file_path context

/-- `ArgumentScorer.process_audio_blob` (lines 170-265 of scoring.py):
identical staging, with the blob transcription's answer as `tr` and the
supplied `filename` recorded as the audio identifier. -/
def process_audio_blob (avatarGen : Option HeyGenAvatarGenerator)
    (tr : TranscriptionResult) (fbReply : FeedbackReply) (choice : Fin 3)
    (vmsg : ArgumentFeedback → String) (avNet : NetReply GenHttpReply)
    (filename : String) (context : Option String) : PipelineResult :=
  runPipeline avatarGen tr fbReply choice vmsg avNet filename context

/-! ## Theorems -/

/-- C9: after every call to TranscribeBlob — whether the delegated
transcription returns a success result, returns a failure result, or
raises — the scoped temporary file no longer exists on disk. -/
theorem C9_temp_file_removed (fs : List String) (tempPath : String)
    (outcome : TranscribeOutcome) :
    tempPath ∉ (transcribe_audio_blob fs tempPath outcome).2 := by
  unfold transcribe_audio_blob
  cases outcome <;> simp

/-- C6: constructed without an API key, the avatar client is disabled and
each of GenerateVideo, CheckStatus, WaitForCompletion and
CreateReactionVideo immediately returns the fixed disabled response —
success=false, status="disabled", video_id and video_url absent — having
made zero network requests. -/
theorem C6_no_key_disabled_mode (aid a2 : Option String) (script vid : String)
    (net1 net3 : NetReply GenHttpReply) (net2 : NetReply StatusHttpReply)
    (netS : Nat → NetReply StatusHttpReply) (maxWait poll : Nat) (hpoll : 0 < poll)
    (fb : FeedbackResult) :
    generate_avatar_video (mkHeyGenAvatarGenerator none aid) script a2 net1 = (disabled_response, 0) ∧
    check_video_status (mkHeyGenAvatarGenerator none aid) vid net2 = (disabled_response, 0) ∧
    wait_for_completion (mkHeyGenAvatarGenerator none aid) vid netS maxWait poll hpoll = (disabled_response, 0) ∧
    create_reaction_video (mkHeyGenAvatarGenerator none aid) fb a2 net3 = (disabled_response, 0) ∧
    disabled_response.success = false ∧ disabled_response.status = "disabled" ∧
    disabled_response.video_id = none ∧ disabled_response.video_url = none := by
  refine ⟨rfl, rfl, ?_, rfl, rfl, rfl, rfl, rfl⟩
  unfold wait_for_completion mkHeyGenAvatarGenerator
  rfl

/-- Witness for C6 at a concrete configuration and oracles. -/
theorem C6_no_key_disabled_mode_witness :
    (0 < 10) ∧
    (generate_avatar_video (mkHeyGenAvatarGenerator none none) "s" none (.raises "x") = (disabled_response, 0) ∧
     check_video_status (mkHeyGenAvatarGenerator none none) "v" (.raises "x") = (disabled_response, 0) ∧
     wait_for_completion (mkHeyGenAvatarGenerator none none) "v" (fun _ => .raises "x") 300 10 (by decide) = (disabled_response, 0) ∧
     create_reaction_video (mkHeyGenAvatarGenerator none none)
       { score := 5, emojis := "e", comment := "c", reasoning := none,
         success := true, error := none, raw_response := none } none (.raises "x") = (disabled_response, 0) ∧
     disabled_response.success = false ∧ disabled_response.status = "disabled" ∧
     disabled_response.video_id = none ∧ disabled_response.video_url = none) :=
  ⟨by decide,
   C6_no_key_disabled_mode none none "s" "v" (.raises "x") (.raises "x") (.raises "x")
     (fun _ => .raises "x") 300 10 (by decide)
     { score := 5, emojis := "e", comment := "c", reasoning := none,
       success := true, error := none, raw_response := none }⟩

/-- C4 (against the claim): the code lowercases the transcript before the
substring test but leaves the indicators "[Music]" and "[Applause]" in
mixed case, so those two indicators can never match.  At the input below
the claim's stated trigger condition holds (success=true, trimmed length
10, under 50 characters, lowercased text contains "[music]"), yet
`is_transcription_valid` returns true instead of the claimed false. -/
theorem C4_bracket_indicators_never_match :
    is_transcription_valid
      { text := "[Music] ok", language := none, duration := none, segments := [],
        success := true, error := none } 10 = true ∧
    strContains (strLower (pyStrip "[Music] ok")) "[music]" = true ∧
    (pyStrip "[Music] ok").length < 50 ∧ 10 ≤ (pyStrip "[Music] ok").length := by
  decide

/-- C10: GenerateCustomFeedback only requires the keys score, emojis and
comment to be present: any parsed reply carrying the three keys is
returned with success=true and the values passed through verbatim — in
particular for scores outside [1, 10] and over-length emojis/comments,
since the schema checks of the standard path are not applied here. -/
theorem C10_custom_feedback_skips_schema_checks (raw : String) (s : ℚ)
    (e c : String) (reasoning : Option String) (choice : Fin 3) :
    generate_custom_feedback (.parsed raw ⟨some s, some e, some c, reasoning⟩) choice =
      { score := s, emojis := e, comment := c, reasoning := reasoning,
        success := true, error := none, raw_response := some raw } :=
  rfl

theorem introFor_eq_wow_iff (s : ℚ) :
    introFor s = "Wow! That was impressive!" ↔ 8 ≤ s := by
  unfold introFor
  split_ifs with h1 h2 h3
  · exact iff_of_true rfl h1
  · exact iff_of_false (by decide) h1
  · exact iff_of_false (by decide) h1
  · exact iff_of_false (by decide) h1

theorem introFor_eq_notbad_iff (s : ℚ) :
    introFor s = "Not bad, not bad!" ↔ 6 ≤ s ∧ s < 8 := by
  unfold introFor
  split_ifs with h1 h2 h3
  · exact iff_of_false (by decide) (fun h => absurd h.2 (not_lt.2 h1))
  · exact iff_of_true rfl ⟨h2, not_le.1 h1⟩
  · exact iff_of_false (by decide) (fun h => absurd h.1 h2)
  · exact iff_of_false (by decide) (fun h => absurd h.1 h2)

theorem introFor_eq_hmm_iff (s : ℚ) :
    introFor s = "Hmm, I see what you're trying to say..." ↔ 4 ≤ s ∧ s < 6 := by
  unfold introFor
  split_ifs with h1 h2 h3
  · exact iff_of_false (by decide) (fun h => absurd h.2 (not_lt.2 (by linarith)))
  · exact iff_of_false (by decide) (fun h => absurd h.2 (not_lt.2 h2))
  · exact iff_of_true rfl ⟨h3, not_le.1 h2⟩
  · exact iff_of_false (by decide) (fun h => absurd h.1 h3)

theorem introFor_eq_okay_iff (s : ℚ) :
    introFor s = "Okay, let me be honest with you..." ↔ s < 4 := by
  unfold introFor
  split_ifs with h1 h2 h3
  · exact iff_of_false (by decide) (not_lt.2 (by linarith))
  · exact iff_of_false (by decide) (not_lt.2 (by linarith))
  · exact iff_of_false (by decide) (not_lt.2 h3)
  · exact iff_of_true rfl (not_le.1 h3)

/-- C7: GenerateReactionScript is the concatenation
`<intro> <sanitized comment> I'm giving you a <score> out of 10 for that
argument!`, where the intro is chosen from the score by the stated
thresholds (each line exactly characterized by its score interval) and
the sanitized comment replaces every "..." by " pause " and every "!" by
" exclamation " (shown on the spec's two sample comments). -/
theorem C7_reaction_script (fb : FeedbackResult) :
    generate_reaction_script fb =
      introFor fb.score ++ " " ++
        strReplace (strReplace fb.comment "..." " pause ") "!" " exclamation " ++
        " I'm giving you a " ++ scoreRepr fb.score ++ " out of 10 for that argument!" ∧
    (introFor fb.score = "Wow! That was impressive!" ↔ 8 ≤ fb.score) ∧
    (introFor fb.score = "Not bad, not bad!" ↔ 6 ≤ fb.score ∧ fb.score < 8) ∧
    (introFor fb.score = "Hmm, I see what you're trying to say..." ↔ 4 ≤ fb.score ∧ fb.score < 6) ∧
    (introFor fb.score = "Okay, let me be honest with you..." ↔ fb.score < 4) ∧
    strReplace (strReplace "Wait... really?" "..." " pause ") "!" " exclamation " =
      "Wait pause  really?" ∧
    strReplace (strReplace "Great job!!" "..." " pause ") "!" " exclamation " =
      "Great job exclamation  exclamation " :=
  ⟨rfl, introFor_eq_wow_iff fb.score, introFor_eq_notbad_iff fb.score,
   introFor_eq_hmm_iff fb.score, introFor_eq_okay_iff fb.score,
   by decide, by decide⟩

/-- C3: whenever the standard feedback path fails — the remote call
raised, the reply failed to parse as JSON, or the parsed data violates
the schema constraints (score outside [1, 10], emojis not of length 1-20,
comment over 100 characters) — the result's content fields exactly match
one of the three fixed fallback records (scores 5.0, 6.0, 5.5), with
success=false, error carrying the real error message of the failing step,
and raw_response absent. -/
theorem C3_fallback_on_feedback_failure (reply : FeedbackReply) (choice : Fin 3)
    (vmsg : ArgumentFeedback → String) (r : FeedbackResult)
    (hr : r = generate_feedback reply choice vmsg)
    (hfail : (∃ m, reply = .callError m) ∨ (∃ raw, reply = .parseError raw) ∨
             (∃ raw d, reply = .parsed raw d ∧ feedbackSchemaValid d = false)) :
    ((r.score = 5 ∧ r.emojis = "ðŸ¤–ðŸ˜…ðŸ”§" ∧
        r.comment = "AI brain glitched! But I heard some good points." ∧
        r.reasoning = some "Technical difficulties occurred") ∨
     (r.score = 6 ∧ r.emojis = "âš¡ðŸ¤”ðŸ’­" ∧
        r.comment = "Connection issues, but your passion came through!" ∧
        r.reasoning = some "API error during evaluation") ∨
     (r.score = 5.5 ∧ r.emojis = "ðŸŒðŸ˜ŠðŸ‘" ∧
        r.comment = "Technical hiccup, but keep arguing!" ∧
        r.reasoning = some "System error occurred")) ∧
    r.success = false ∧ r.raw_response = none ∧
    (∀ m, reply = .callError m → r.error = some m) ∧
    (∀ raw, reply = .parseError raw → r.error = some "Invalid response format from AI") ∧
    (∀ raw d, reply = .parsed raw d → r.error = some (vmsg d)) := by
  subst hr
  rcases hfail with ⟨m, rfl⟩ | ⟨raw, rfl⟩ | ⟨raw, d, rfl, hv⟩
  · fin_cases choice <;> simp [generate_feedback, get_fallback_feedback, fallback_responses]
  · fin_cases choice <;> simp [generate_feedback, get_fallback_feedback, fallback_responses]
  · fin_cases choice <;> simp [generate_feedback, get_fallback_feedback, fallback_responses, hv]

/-- Witness for C3: a constructed reply with score 11.0 (outside [1, 10])
is routed to a fallback with success=false; score 11.0 is never returned
as a usable value. -/
theorem C3_fallback_on_feedback_failure_witness :
    feedbackSchemaValid ⟨11, "ee", "cc", none⟩ = false ∧
    (generate_feedback (.parsed "raw" ⟨11, "ee", "cc", none⟩) 0
        (fun _ => "1 validation error for ArgumentFeedback")).success = false ∧
    (generate_feedback (.parsed "raw" ⟨11, "ee", "cc", none⟩) 0
        (fun _ => "1 validation error for ArgumentFeedback")).score = 5 := by
  have h := C3_fallback_on_feedback_failure (.parsed "raw" ⟨11, "ee", "cc", none⟩) 0
    (fun _ => "1 validation error for ArgumentFeedback") _ rfl
    (Or.inr (Or.inr ⟨"raw", ⟨11, "ee", "cc", none⟩, rfl, by decide⟩))
  exact ⟨by decide, h.2.1, rfl⟩

theorem feedback_started_ne_failed_marker (msg : String) :
    "feedback_started" ≠ "pipeline_failed: " ++ msg := by
  intro h
  have h2 := congrArg String.length h
  rw [String.length_append] at h2
  have e1 : ("feedback_started" : String).length = 16 := rfl
  have e2 : ("pipeline_failed: " : String).length = 17 := rfl
  omega

/-- A transcription that reports failure is also judged invalid. -/
theorem is_transcription_valid_of_not_success (tr : TranscriptionResult)
    (h : tr.success = false) (n : Nat) : is_transcription_valid tr n = false := by
  unfold is_transcription_valid
  simp [h]

/-- Shape of the pipeline result on the transcription-failure gate. -/
theorem runPipeline_invalid_transcript (avatarGen : Option HeyGenAvatarGenerator)
    (tr : TranscriptionResult) (fbReply : FeedbackReply) (choice : Fin 3)
    (vmsg : ArgumentFeedback → String) (avNet : NetReply GenHttpReply)
    (af : String) (ctx : Option String) (msg : String)
    (hbad : tr.success = false ∨ is_transcription_valid tr 10 = false)
    (hmsg : msg = if tr.success = false then "Transcription failed: " ++ optStr tr.error
                  else "Transcription is too short or invalid") :
    runPipeline avatarGen tr fbReply choice vmsg avNet af ctx =
      { audio_file := af, context := ctx, transcription := some tr,
        feedback := none, avatar_video := none, success := false,
        error := some msg,
        processing_steps := ["transcription_started", "pipeline_failed: " ++ msg] } := by
  have hinvalid : is_transcription_valid tr 10 = false := by
    rcases hbad with h | h
    · exact is_transcription_valid_of_not_success tr h 10
    · exact h
  subst hmsg
  cases htr : tr.success
  · unfold runPipeline
    simp [htr]
  · unfold runPipeline
    simp [htr, hinvalid]

/-- Shape of the pipeline result on the happy transcription path when no
enabled avatar generator is configured. -/
theorem runPipeline_valid_noavatar (avatarGen : Option HeyGenAvatarGenerator)
    (tr : TranscriptionResult) (fbReply : FeedbackReply) (choice : Fin 3)
    (vmsg : ArgumentFeedback → String) (avNet : NetReply GenHttpReply)
    (af : String) (ctx : Option String)
    (htr : tr.success = true) (hvalid : is_transcription_valid tr 10 = true)
    (hav : avatarGen = none ∨ ∃ g, avatarGen = some g ∧ g.is_enabled = false) :
    runPipeline avatarGen tr fbReply choice vmsg avNet af ctx =
      { audio_file := af, context := ctx, transcription := some tr,
        feedback := some (generate_feedback fbReply choice vmsg),
        avatar_video := some scorerDisabledPlaceholder, success := true,
        error := none,
        processing_steps := ["transcription_started", "transcription_completed",
          "feedback_started", "feedback_completed", "pipeline_completed"] } := by
  rcases hav with rfl | ⟨g, rfl, hen⟩
  · unfold runPipeline
    simp [htr, hvalid]
  · unfold runPipeline
    simp [htr, hvalid, hen]

/-- Shape of the pipeline result on the happy transcription path with an
enabled avatar generator. -/
theorem runPipeline_valid_avatar (g : HeyGenAvatarGenerator)
    (tr : TranscriptionResult) (fbReply : FeedbackReply) (choice : Fin 3)
    (vmsg : ArgumentFeedback → String) (avNet : NetReply GenHttpReply)
    (af : String) (ctx : Option String)
    (htr : tr.success = true) (hvalid : is_transcription_valid tr 10 = true)
    (hen : g.is_enabled = true) :
    runPipeline (some g) tr fbReply choice vmsg avNet af ctx =
      { audio_file := af, context := ctx, transcription := some tr,
        feedback := some (generate_feedback fbReply choice vmsg),
        avatar_video := some ((create_reaction_video g
          (generate_feedback fbReply choice vmsg) none avNet).1),
        success := true, error := none,
        processing_steps := ["transcription_started", "transcription_completed",
          "feedback_started", "feedback_completed", "avatar_started",
          "avatar_completed", "pipeline_completed"] } := by
  unfold runPipeline
  simp [htr, hvalid, hen]

/-- C1: for every audio input whose transcription result has success=false
or fails IsValid, ProcessAudioFile and ProcessAudioBlob return a result
with success=false, the descriptive error message ("Transcription failed:
<error>" or "Transcription is too short or invalid"), a processing_steps
log that contains "transcription_started", contains no "feedback_started",
and ends with the "pipeline_failed: <error>" marker, and with the
feedback and avatar_video fields still absent. -/
theorem C1_transcription_hard_gate (avatarGen : Option HeyGenAvatarGenerator)
    (tr : TranscriptionResult) (fbReply : FeedbackReply) (choice : Fin 3)
    (vmsg : ArgumentFeedback → String) (avNet : NetReply GenHttpReply)
    (path fname : String) (ctx : Option String) (msg : String)
    (hbad : tr.success = false ∨ is_transcription_valid tr 10 = false)
    (hmsg : msg = if tr.success = false then "Transcription failed: " ++ optStr tr.error
                  else "Transcription is too short or invalid") :
    ∀ r ∈ [process_audio_file avatarGen tr fbReply choice vmsg avNet path ctx,
           process_audio_blob avatarGen tr fbReply choice vmsg avNet fname ctx],
      r.success = false ∧ r.error = some msg ∧
      "transcription_started" ∈ r.processing_steps ∧
      "feedback_started" ∉ r.processing_steps ∧
      r.processing_steps.getLast? = some ("pipeline_failed: " ++ msg) ∧
      r.feedback = none ∧ r.avatar_video = none := by
  have hfile := runPipeline_invalid_transcript avatarGen tr fbReply choice vmsg avNet
    path ctx msg hbad hmsg
  have hblob := runPipeline_invalid_transcript avatarGen tr fbReply choice vmsg avNet
    fname ctx msg hbad hmsg
  intro r hr
  simp only [List.mem_cons, List.not_mem_nil, or_false] at hr
  rcases hr with rfl | rfl
  · unfold process_audio_file
    rw [hfile]
    refine ⟨rfl, rfl, by simp, ?_, rfl, rfl, rfl⟩
    simp [feedback_started_ne_failed_marker msg]
  · unfold process_audio_blob
    rw [hblob]
    refine ⟨rfl, rfl, by simp, ?_, rfl, rfl, rfl⟩
    simp [feedback_started_ne_failed_marker msg]

/-- Witness for C1 at a concrete failed transcription. -/
theorem C1_transcription_hard_gate_witness :
    ((process_audio_file none
        { text := "", language := none, duration := none, segments := [],
          success := false, error := some "boom" }
        (.callError "e") 0 (fun _ => "v") (.raises "x") "a.wav" none).success = false ∧
     (process_audio_file none
        { text := "", language := none, duration := none, segments := [],
          success := false, error := some "boom" }
        (.callError "e") 0 (fun _ => "v") (.raises "x") "a.wav" none).error =
       some "Transcription failed: boom" ∧
     "transcription_started" ∈ (process_audio_file none
        { text := "", language := none, duration := none, segments := [],
          success := false, error := some "boom" }
        (.callError "e") 0 (fun _ => "v") (.raises "x") "a.wav" none).processing_steps ∧
     "feedback_started" ∉ (process_audio_file none
        { text := "", language := none, duration := none, segments := [],
          success := false, error := some "boom" }
        (.callError "e") 0 (fun _ => "v") (.raises "x") "a.wav" none).processing_steps ∧
     (process_audio_file none
        { text := "", language := none, duration := none, segments := [],
          success := false, error := some "boom" }
        (.callError "e") 0 (fun _ => "v") (.raises "x") "a.wav" none).processing_steps.getLast? =
       some ("pipeline_failed: " ++ "Transcription failed: boom") ∧
     (process_audio_file none
        { text := "", language := none, duration := none, segments := [],
          success := false, error := some "boom" }
        (.callError "e") 0 (fun _ => "v") (.raises "x") "a.wav" none).feedback = none ∧
     (process_audio_file none
        { text := "", language := none, duration := none, segments := [],
          success := false, error := some "boom" }
        (.callError "e") 0 (fun _ => "v") (.raises "x") "a.wav" none).avatar_video = none) ∧
    ((process_audio_blob none
        { text := "", language := none, duration := none, segments := [],
          success := false, error := some "boom" }
        (.callError "e") 0 (fun _ => "v") (.raises "x") "rec.webm" none).success = false ∧
     (process_audio_blob none
        { text := "", language := none, duration := none, segments := [],
          success := false, error := some "boom" }
        (.callError "e") 0 (fun _ => "v") (.raises "x") "rec.webm" none).error =
       some "Transcription failed: boom" ∧
     "transcription_started" ∈ (process_audio_blob none
        { text := "", language := none, duration := none, segments := [],
          success := false, error := some "boom" }
        (.callError "e") 0 (fun _ => "v") (.raises "x") "rec.webm" none).processing_steps ∧
     "feedback_started" ∉ (process_audio_blob none
        { text := "", language := none, duration := none, segments := [],
          success := false, error := some "boom" }
        (.callError "e") 0 (fun _ => "v") (.raises "x") "rec.webm" none).processing_steps ∧
     (process_audio_blob none
        { text := "", language := none, duration := none, segments := [],
          success := false, error := some "boom" }
        (.callError "e") 0 (fun _ => "v") (.raises "x") "rec.webm" none).processing_steps.getLast? =
       some ("pipeline_failed: " ++ "Transcription failed: boom") ∧
     (process_audio_blob none
        { text := "", language := none, duration := none, segments := [],
          success := false, error := some "boom" }
        (.callError "e") 0 (fun _ => "v") (.raises "x") "rec.webm" none).feedback = none ∧
     (process_audio_blob none
        { text := "", language := none, duration := none, segments := [],
          success := false, error := some "boom" }
        (.callError "e") 0 (fun _ => "v") (.raises "x") "rec.webm" none).avatar_video = none) := by
  have h := C1_transcription_hard_gate none
    { text := "", language := none, duration := none, segments := [],
      success := false, error := some "boom" }
    (.callError "e") 0 (fun _ => "v") (.raises "x") "a.wav" "rec.webm" none
    "Transcription failed: boom" (Or.inl rfl) rfl
  exact ⟨h _ (by simp), h _ (by simp)⟩

/-- C2: when transcription succeeds and is valid but the feedback stage
returns a fallback result with success=false, ProcessAudioFile and
ProcessAudioBlob do not abort: the fallback feedback values are stored,
"feedback_completed" is appended, the avatar stage (or the disabled
placeholder) is reached, and the pipeline returns overall success=true
ending with "pipeline_completed". -/
theorem C2_pipeline_survives_feedback_failure (avatarGen : Option HeyGenAvatarGenerator)
    (tr : TranscriptionResult) (fbReply : FeedbackReply) (choice : Fin 3)
    (vmsg : ArgumentFeedback → String) (avNet : NetReply GenHttpReply)
    (path fname : String) (ctx : Option String)
    (htr : tr.success = true) (hvalid : is_transcription_valid tr 10 = true)
    (hfb : (generate_feedback fbReply choice vmsg).success = false) :
    ∀ r ∈ [process_audio_file avatarGen tr fbReply choice vmsg avNet path ctx,
           process_audio_blob avatarGen tr fbReply choice vmsg avNet fname ctx],
      r.success = true ∧
      r.feedback = some (generate_feedback fbReply choice vmsg) ∧
      "feedback_completed" ∈ r.processing_steps ∧
      r.processing_steps.getLast? = some "pipeline_completed" ∧
      r.avatar_video = some
        (match avatarGen with
         | some g =>
           if g.is_enabled then
             (create_reaction_video g (generate_feedback fbReply choice vmsg) none avNet).1
           else scorerDisabledPlaceholder
         | none => scorerDisabledPlaceholder) := by
  have key : ∀ af : String,
      (runPipeline avatarGen tr fbReply choice vmsg avNet af ctx).success = true ∧
      (runPipeline avatarGen tr fbReply choice vmsg avNet af ctx).feedback =
        some (generate_feedback fbReply choice vmsg) ∧
      "feedback_completed" ∈ (runPipeline avatarGen tr fbReply choice vmsg avNet af ctx).processing_steps ∧
      (runPipeline avatarGen tr fbReply choice vmsg avNet af ctx).processing_steps.getLast? =
        some "pipeline_completed" ∧
      (runPipeline avatarGen tr fbReply choice vmsg avNet af ctx).avatar_video = some
        (match avatarGen with
         | some g =>
           if g.is_enabled then
             (create_reaction_video g (generate_feedback fbReply choice vmsg) none avNet).1
           else scorerDisabledPlaceholder
         | none => scorerDisabledPlaceholder) := by
    intro af
    rcases avatarGen with _ | g
    · rw [runPipeline_valid_noavatar none tr fbReply choice vmsg avNet af ctx htr hvalid
        (Or.inl rfl)]
      exact ⟨rfl, rfl, by simp, rfl, rfl⟩
    · by_cases hen : g.is_enabled = true
      · rw [runPipeline_valid_avatar g tr fbReply choice vmsg avNet af ctx htr hvalid hen]
        refine ⟨rfl, rfl, by simp, rfl, ?_⟩
        simp [hen]
      · have hen' : g.is_enabled = false := by simpa using hen
        rw [runPipeline_valid_noavatar (some g) tr fbReply choice vmsg avNet af ctx htr hvalid
          (Or.inr ⟨g, rfl, hen'⟩)]
        refine ⟨rfl, rfl, by simp, rfl, ?_⟩
        simp [hen']
  intro r hr
  simp only [List.mem_cons, List.not_mem_nil, or_false] at hr
  rcases hr with rfl | rfl
  · exact key path
  · exact key fname

/-- Witness for C2 at a concrete valid transcription and failing
feedback call. -/
theorem C2_pipeline_survives_feedback_failure_witness :
    ((process_audio_file none
        { text := "A concise well formed argument", language := none,
          duration := none, segments := [], success := true, error := none }
        (.callError "down") 0 (fun _ => "v") (.raises "x") "a.wav" none).success = true ∧
     (process_audio_file none
        { text := "A concise well formed argument", language := none,
          duration := none, segments := [], success := true, error := none }
        (.callError "down") 0 (fun _ => "v") (.raises "x") "a.wav" none).feedback =
       some (generate_feedback (.callError "down") 0 (fun _ => "v")) ∧
     "feedback_completed" ∈ (process_audio_file none
        { text := "A concise well formed argument", language := none,
          duration := none, segments := [], success := true, error := none }
        (.callError "down") 0 (fun _ => "v") (.raises "x") "a.wav" none).processing_steps ∧
     (process_audio_file none
        { text := "A concise well formed argument", language := none,
          duration := none, segments := [], success := true, error := none }
        (.callError "down") 0 (fun _ => "v") (.raises "x") "a.wav" none).processing_steps.getLast? =
       some "pipeline_completed" ∧
     (process_audio_file none
        { text := "A concise well formed argument", language := none,
          duration := none, segments := [], success := true, error := none }
        (.callError "down") 0 (fun _ => "v") (.raises "x") "a.wav" none).avatar_video =
       some scorerDisabledPlaceholder) ∧
    ((process_audio_blob none
        { text := "A concise well formed argument", language := none,
          duration := none, segments := [], success := true, error := none }
        (.callError "down") 0 (fun _ => "v") (.raises "x") "rec.webm" none).success = true ∧
     (process_audio_blob none
        { text := "A concise well formed argument", language := none,
          duration := none, segments := [], success := true, error := none }
        (.callError "down") 0 (fun _ => "v") (.raises "x") "rec.webm" none).feedback =
       some (generate_feedback (.callError "down") 0 (fun _ => "v")) ∧
     "feedback_completed" ∈ (process_audio_blob none
        { text := "A concise well formed argument", language := none,
          duration := none, segments := [], success := true, error := none }
        (.callError "down") 0 (fun _ => "v") (.raises "x") "rec.webm" none).processing_steps ∧
     (process_audio_blob none
        { text := "A concise well formed argument", language := none,
          duration := none, segments := [], success := true, error := none }
        (.callError "down") 0 (fun _ => "v") (.raises "x") "rec.webm" none).processing_steps.getLast? =
       some "pipeline_completed" ∧
     (process_audio_blob none
        { text := "A concise well formed argument", language := none,
          duration := none, segments := [], success := true, error := none }
        (.callError "down") 0 (fun _ => "v") (.raises "x") "rec.webm" none).avatar_video =
       some scorerDisabledPlaceholder) := by
  have h := C2_pipeline_survives_feedback_failure none
    { text := "A concise well formed argument", language := none,
      duration := none, segments := [], success := true, error := none }
    (.callError "down") 0 (fun _ => "v") (.raises "x") "a.wav" "rec.webm" none
    rfl (by decide) rfl
  exact ⟨h _ (by simp), h _ (by simp)⟩

/-- C5: when transcription succeeds and is valid, feedback succeeds, and
no enabled avatar generator is configured, ProcessAudioBlob returns
success=true with the disabled placeholder (status "disabled") as
avatar_video and processing_steps exactly equal to the five-entry list —
no avatar_started/avatar_completed markers on the disabled-skip path. -/
theorem C5_disabled_avatar_placeholder (avatarGen : Option HeyGenAvatarGenerator)
    (tr : TranscriptionResult) (fbReply : FeedbackReply) (choice : Fin 3)
    (vmsg : ArgumentFeedback → String) (avNet : NetReply GenHttpReply)
    (fname : String) (ctx : Option String)
    (htr : tr.success = true) (hvalid : is_transcription_valid tr 10 = true)
    (hfb : (generate_feedback fbReply choice vmsg).success = true)
    (hav : avatarGen = none ∨ ∃ g, avatarGen = some g ∧ g.is_enabled = false) :
    (process_audio_blob avatarGen tr fbReply choice vmsg avNet fname ctx).success = true ∧
    (process_audio_blob avatarGen tr fbReply choice vmsg avNet fname ctx).avatar_video =
      some scorerDisabledPlaceholder ∧
    scorerDisabledPlaceholder.status = "disabled" ∧
    (process_audio_blob avatarGen tr fbReply choice vmsg avNet fname ctx).processing_steps =
      ["transcription_started", "transcription_completed", "feedback_started",
       "feedback_completed", "pipeline_completed"] := by
  unfold process_audio_blob
  rw [runPipeline_valid_noavatar avatarGen tr fbReply choice vmsg avNet fname ctx htr hvalid hav]
  exact ⟨rfl, rfl, rfl, rfl⟩

/-- Witness for C5 at a concrete valid transcription, successful feedback
and absent avatar generator. -/
theorem C5_disabled_avatar_placeholder_witness :
    (process_audio_blob none
       { text := "A concise well formed argument", language := none,
         duration := none, segments := [], success := true, error := none }
       (.parsed "raw" ⟨8, "abc", "Nice", none⟩) 0 (fun _ => "v") (.raises "x")
       "rec.webm" none).success = true ∧
    (process_audio_blob none
       { text := "A concise well formed argument", language := none,
         duration := none, segments := [], success := true, error := none }
       (.parsed "raw" ⟨8, "abc", "Nice", none⟩) 0 (fun _ => "v") (.raises "x")
       "rec.webm" none).avatar_video = some scorerDisabledPlaceholder ∧
    scorerDisabledPlaceholder.status = "disabled" ∧
    (process_audio_blob none
       { text := "A concise well formed argument", language := none,
         duration := none, segments := [], success := true, error := none }
       (.parsed "raw" ⟨8, "abc", "Nice", none⟩) 0 (fun _ => "v") (.raises "x")
       "rec.webm" none).processing_steps =
      ["transcription_started", "transcription_completed", "feedback_started",
       "feedback_completed", "pipeline_completed"] :=
  C5_disabled_avatar_placeholder none
    { text := "A concise well formed argument", language := none,
      duration := none, segments := [], success := true, error := none }
    (.parsed "raw" ⟨8, "abc", "Nice", none⟩) 0 (fun _ => "v") (.raises "x")
    "rec.webm" none rfl (by decide) (by decide) (Or.inl rfl)

/-- If every status response within the polling window keeps the loop
going (success, neither "completed" nor "failed"), the wait loop returns
the timeout failure.  `fuel` bounds `maxWait - elapsed` to drive the
induction. -/
theorem waitLoop_timeout (fuel : Nat) : ∀ (gen : HeyGenAvatarGenerator) (vid : String)
    (net : Nat → NetReply StatusHttpReply) (maxWait poll : Nat) (hpoll : 0 < poll)
    (elapsed n acc : Nat),
    maxWait - elapsed ≤ fuel →
    (∀ j, ((check_video_status gen vid (net j)).1).success = true) →
    (∀ j, elapsed + j * poll < maxWait →
       ((check_video_status gen vid (net (n + j))).1).status ≠ "completed" ∧
       ((check_video_status gen vid (net (n + j))).1).status ≠ "failed") →
    (waitLoop gen vid net maxWait poll hpoll elapsed n acc).1 =
      error_response ("Video generation timed out after " ++ toString maxWait ++ " seconds") := by
  induction fuel with
  | zero =>
    intro gen vid net maxWait poll hpoll elapsed n acc hfuel hs hc
    have h : ¬ elapsed < maxWait := by omega
    unfold waitLoop
    rw [dif_neg h]
  | succ f ih =>
    intro gen vid net maxWait poll hpoll elapsed n acc hfuel hs hc
    by_cases h : elapsed < maxWait
    · have h0 := hc 0 (by simpa using h)
      simp only [Nat.add_zero] at h0
      unfold waitLoop
      rw [dif_pos h]
      simp only [hs n, h0.1, h0.2, if_neg, Bool.true_eq_false, if_false]
      apply ih gen vid net maxWait poll hpoll (elapsed + poll) (n + 1)
      · omega
      · exact hs
      · intro j hj
        have e1 : elapsed + (j + 1) * poll = elapsed + poll + j * poll := by ring
        have := hc (j + 1) (by rw [e1]; exact hj)
        rwa [show n + (j + 1) = n + 1 + j from by omega] at this
    · unfold waitLoop
      rw [dif_neg h]

/-- If the first decisive status response (the first that is "completed"
or "failed") arrives within the polling window, the wait loop returns the
corresponding result: the status result itself on "completed", the fixed
failure on "failed". -/
theorem waitLoop_first_decisive (jd : Nat) : ∀ (gen : HeyGenAvatarGenerator) (vid : String)
    (net : Nat → NetReply StatusHttpReply) (maxWait poll : Nat) (hpoll : 0 < poll)
    (elapsed n acc : Nat),
    (∀ j, ((check_video_status gen vid (net j)).1).success = true) →
    elapsed + jd * poll < maxWait →
    (∀ k, k < jd →
       ((check_video_status gen vid (net (n + k))).1).status ≠ "completed" ∧
       ((check_video_status gen vid (net (n + k))).1).status ≠ "failed") →
    (((check_video_status gen vid (net (n + jd))).1).status = "completed" →
       (waitLoop gen vid net maxWait poll hpoll elapsed n acc).1 =
         (check_video_status gen vid (net (n + jd))).1) ∧
    (((check_video_status gen vid (net (n + jd))).1).status = "failed" →
       (waitLoop gen vid net maxWait poll hpoll elapsed n acc).1 =
         error_response "Video generation failed") := by
  induction jd with
  | zero =>
    intro gen vid net maxWait poll hpoll elapsed n acc hs hlt hk
    have h : elapsed < maxWait := by simpa using hlt
    simp only [Nat.add_zero]
    constructor
    · intro hst
      unfold waitLoop
      rw [dif_pos h]
      simp only [hs n, hst, Bool.true_eq_false, if_false, if_true]
    · intro hst
      unfold waitLoop
      rw [dif_pos h]
      simp only [hs n, hst, Bool.true_eq_false, if_false]
      rw [if_neg (by decide : ¬ ("failed" : String) = "completed")]
      simp
  | succ jdp ih =>
    intro gen vid net maxWait poll hpoll elapsed n acc hs hlt hk
    have h : elapsed < maxWait := by
      have : elapsed ≤ elapsed + (jdp + 1) * poll := Nat.le_add_right _ _
      omega
    have h0 := hk 0 (Nat.succ_pos jdp)
    simp only [Nat.add_zero] at h0
    have key := ih gen vid net maxWait poll hpoll (elapsed + poll) (n + 1) (acc +
        (check_video_status gen vid (net n)).2) hs
      (by rw [show elapsed + poll + jdp * poll = elapsed + (jdp + 1) * poll from by ring]
          exact hlt)
      (fun k hkk => by
        have := hk (k + 1) (Nat.succ_lt_succ hkk)
        rwa [show n + (k + 1) = n + 1 + k from by omega] at this)
    rw [show n + (jdp + 1) = n + 1 + jdp from by omega]
    constructor
    · intro hst
      unfold waitLoop
      rw [dif_pos h]
      simp only [hs n, h0.1, h0.2, Bool.true_eq_false, if_false]
      exact key.1 hst
    · intro hst
      unfold waitLoop
      rw [dif_pos h]
      simp only [hs n, h0.1, h0.2, Bool.true_eq_false, if_false]
      exact key.2 hst

/-- C8: WaitForCompletion always terminates (the model `waitLoop` is a
total function) and, for every sequence of status responses, returns the
successful status result at the first "completed" status, the fixed
failure result at the first "failed" status, keeps polling on every other
status, and returns the "Video generation timed out after <max_wait_time>
seconds" failure once the maximum wait time elapses with only
keep-polling responses. -/
theorem C8_wait_for_completion_behavior (key vid : String) (aid : Option String)
    (net : Nat → NetReply StatusHttpReply) (maxWait poll : Nat) (hpoll : 0 < poll)
    (hs : ∀ j, ((check_video_status (mkHeyGenAvatarGenerator (some key) aid) vid (net j)).1).success = true) :
    ((∀ j, j * poll < maxWait →
        ((check_video_status (mkHeyGenAvatarGenerator (some key) aid) vid (net j)).1).status ≠ "completed" ∧
        ((check_video_status (mkHeyGenAvatarGenerator (some key) aid) vid (net j)).1).status ≠ "failed") →
      (wait_for_completion (mkHeyGenAvatarGenerator (some key) aid) vid net maxWait poll hpoll).1 =
        error_response ("Video generation timed out after " ++ toString maxWait ++ " seconds")) ∧
    (∀ j, j * poll < maxWait →
      (∀ k, k < j →
        ((check_video_status (mkHeyGenAvatarGenerator (some key) aid) vid (net k)).1).status ≠ "completed" ∧
        ((check_video_status (mkHeyGenAvatarGenerator (some key) aid) vid (net k)).1).status ≠ "failed") →
      (((check_video_status (mkHeyGenAvatarGenerator (some key) aid) vid (net j)).1).status = "completed" →
        (wait_for_completion (mkHeyGenAvatarGenerator (some key) aid) vid net maxWait poll hpoll).1 =
          (check_video_status (mkHeyGenAvatarGenerator (some key) aid) vid (net j)).1) ∧
      (((check_video_status (mkHeyGenAvatarGenerator (some key) aid) vid (net j)).1).status = "failed" →
        (wait_for_completion (mkHeyGenAvatarGenerator (some key) aid) vid net maxWait poll hpoll).1 =
          error_response "Video generation failed")) := by
  have hw : wait_for_completion (mkHeyGenAvatarGenerator (some key) aid) vid net maxWait poll hpoll =
      waitLoop (mkHeyGenAvatarGenerator (some key) aid) vid net maxWait poll hpoll 0 0 0 := rfl
  constructor
  · intro hc
    rw [hw]
    apply waitLoop_timeout maxWait (mkHeyGenAvatarGenerator (some key) aid) vid net
      maxWait poll hpoll 0 0 0
    · omega
    · exact hs
    · intro j hj
      have := hc j (by simpa using hj)
      simpa using this
  · intro j hj hk
    have hfd := waitLoop_first_decisive j (mkHeyGenAvatarGenerator (some key) aid) vid net
      maxWait poll hpoll 0 0 0 hs (by simpa using hj)
      (fun k hkk => by simpa using hk k hkk)
    rw [hw]
    constructor
    · intro hst
      have := hfd.1 (by simpa using hst)
      simpa using this
    · intro hst
      exact hfd.2 (by simpa using hst)

/-- Witness for C8: a stream whose first status response is "completed"
makes WaitForCompletion return that status result. -/
theorem C8_wait_for_completion_behavior_witness :
    (0 < 10) ∧
    (∀ j : Nat, ((check_video_status (mkHeyGenAvatarGenerator (some "k") none) "v"
        ((fun _ => NetReply.reply ⟨200, "", some "completed", some "u", none, none⟩) j)).1).success = true) ∧
    (wait_for_completion (mkHeyGenAvatarGenerator (some "k") none) "v"
        (fun _ => NetReply.reply ⟨200, "", some "completed", some "u", none, none⟩)
        300 10 (by decide)).1 =
      (check_video_status (mkHeyGenAvatarGenerator (some "k") none) "v"
        (NetReply.reply ⟨200, "", some "completed", some "u", none, none⟩)).1 := by
  refine ⟨by decide, fun j => rfl, ?_⟩
  have h := C8_wait_for_completion_behavior "k" "v" none
    (fun _ => NetReply.reply ⟨200, "", some "completed", some "u", none, none⟩)
    300 10 (by decide) (fun j => rfl)
  exact (h.2 0 (by decide) (fun k hkk => absurd hkk (Nat.not_lt_zero k))).1 rfl

end AudioMVP
